import Mathlib

/-!
Shallow embedding of the trade-execution engine of the repository
(`buyToken.js`, `sellToken.js`, `connectionManager.js`, and the fixed
connection manager variant shipped under `src/unnamed/part_001`).

JavaScript numbers are modelled as rationals (`ℚ`), `Math.floor` as
`Int.floor`, and fallible network calls as explicit oracle values fed to
the embedded control flow.
-/

namespace SolBot

/-! ## Connection manager (`connectionManager.js` and the fixed variant) -/

/-- A constructed `Connection` handle: the RPC endpoint and the commitment
string it was constructed with.  Handles are never mutated after
construction, so this record captures them completely. -/
structure Conn where
  rpcUrl : String
  commitment : String
deriving DecidableEq, Repr

/-- Function `getConnection` of `src/connectionManager.js`: a single module-level
singleton `connectionInstance`.  If an instance exists and `forceRefresh`
is false it is returned unchanged (the `commitment` argument is ignored);
otherwise a new connection is constructed with the requested commitment
and cached.  Returns the handle and the new singleton state. -/
def getConnection (state : Option Conn) (forceRefresh : Bool)
    (rpcUrl : String) (commitment : String) : Conn × Option Conn :=
  match state, forceRefresh with
  | some c, false => (c, some c)
  | _, _ =>
    let c : Conn := ⟨rpcUrl, commitment⟩
    (c, some c)

/-- The commitment strings accepted by the fixed connection manager
(`src/unnamed/part_001`). -/
def validCommitments : List String := ["processed", "confirmed", "finalized"]

/-- Per-commitment cache `connectionInstances` of the fixed connection
manager: one optional handle per commitment level. -/
structure ConnCache where
  processed : Option Conn
  confirmed : Option Conn
  finalized : Option Conn
deriving DecidableEq, Repr

/-- The empty cache (all three instances `null`). -/
def ConnCache.empty : ConnCache := ⟨none, none, none⟩

/-- Look a commitment level up in the cache. -/
def ConnCache.get (cache : ConnCache) (commitment : String) : Option Conn :=
  if commitment = "processed" then cache.processed
  else if commitment = "confirmed" then cache.confirmed
  else if commitment = "finalized" then cache.finalized
  else none

/-- Store a handle under a commitment level. -/
def ConnCache.set (cache : ConnCache) (commitment : String) (c : Conn) : ConnCache :=
  if commitment = "processed" then { cache with processed := some c }
  else if commitment = "confirmed" then { cache with confirmed := some c }
  else if commitment = "finalized" then { cache with finalized := some c }
  else cache

/-- Function `getConnection` of the fixed connection manager
(`src/unnamed/part_001`): an invalid commitment string defaults to
`"confirmed"`; a cached instance for the requested level is returned when
present and `forceRefresh` is false; otherwise a new handle is
constructed with the requested commitment and cached under that level. -/
def getConnectionFixed (cache : ConnCache) (forceRefresh : Bool)
    (rpcUrl : String) (commitment : String) : Conn × ConnCache :=
  let commitment :=
    if validCommitments.contains commitment then commitment else "confirmed"
  match cache.get commitment, forceRefresh with
  | some c, false => (c, cache)
  | _, _ =>
    let c : Conn := ⟨rpcUrl, commitment⟩
    (c, cache.set commitment c)

/-! ## Fee estimation (`buyToken.js` lines 68–103, `sellToken.js` lines 94–138) -/

/-- Fee tiers of `config.feeLevels`. -/
inductive FeeTier
  | low
  | medium
  | high
  | urgent
  | custom
deriving DecidableEq, Repr

/-- The configuration fields consumed by the trade pipeline. -/
structure Config where
  feeLevels : FeeTier → ℚ
  defaultFee : FeeTier
  dynamicFee : Bool
  priorityFeeMultiplier : ℚ
  antiMEV : Bool

/-- Outcome of `connection.getRecentPrioritizationFees()`: either the call
threw, or it returned a list of `prioritizationFee` values. -/
inductive FeeSample
  | fail
  | ok (fees : List ℚ)
deriving DecidableEq, Repr

/-- Value `avgPriorityMultiplier`: mean of the first five returned fees
(`recentFees = response.slice(0, 5)`). -/
def avgPriorityMultiplier (fees : List ℚ) : ℚ :=
  ((fees.take 5).sum) / ((fees.take 5).length : ℚ)

/-- Value `dynamicMultiplier = Math.max(1.0, avgPriorityMultiplier / 5000)`. -/
def dynamicMultiplier (fees : List ℚ) : ℚ :=
  max 1 (avgPriorityMultiplier fees / 5000)

/-- Fee-level computation of `buyToken.js` (lines 73–103): custom tier when
configured positive, else dynamic fee from the network sample when
`config.dynamicFee`, else the static configured tier fee.  In the dynamic
branch an empty sample or a throwing call degrades to
`Math.floor(baseFee * config.priorityFeeMultiplier)`. -/
def buyComputeLimit (cfg : Config) (selectedFeeType : FeeTier)
    (sample : FeeSample) : ℚ :=
  if selectedFeeType = FeeTier.custom ∧ cfg.feeLevels FeeTier.custom > 0 then
    cfg.feeLevels FeeTier.custom
  else if cfg.dynamicFee then
    let baseFee := cfg.feeLevels selectedFeeType
    match sample with
    | FeeSample.ok fees =>
      if fees.length > 0 then
        ((⌊baseFee * min (dynamicMultiplier fees) cfg.priorityFeeMultiplier⌋ : ℤ) : ℚ)
      else
        ((⌊baseFee * cfg.priorityFeeMultiplier⌋ : ℤ) : ℚ)
    | FeeSample.fail =>
      ((⌊baseFee * cfg.priorityFeeMultiplier⌋ : ℤ) : ℚ)
  else
    cfg.feeLevels selectedFeeType

/-- Value `sellMultiplierBoost` of `sellToken.js` (lines 120 and 368):
`sellPercentage >= 75 ? 1.5 : 1.2`. -/
def sellMultiplierBoost (sellPercentage : ℚ) : ℚ :=
  if sellPercentage ≥ 75 then 3 / 2 else 6 / 5

/-- Fee-tier selection of `sellToken.js` (lines 96–103): the requested tier
(or the configured default), upgraded from `medium` to `high` when
`sellPercentage >= 50`. -/
def sellSelectedFeeType (optFeeType : Option FeeTier) (cfg : Config)
    (sellPercentage : ℚ) : FeeTier :=
  let t := optFeeType.getD cfg.defaultFee
  if sellPercentage ≥ 50 ∧ t = FeeTier.medium then FeeTier.high else t

/-- Fee-level computation of `sellToken.js` (lines 105–138), applied after
tier selection.  The dynamic branch boosts the multiplier by
`sellMultiplierBoost` and clips at `priorityFeeMultiplier * 1.5`; an empty
sample or a throwing call degrades to
`Math.floor(baseFee * config.priorityFeeMultiplier)`. -/
def sellComputeLimit (cfg : Config) (selectedFeeType : FeeTier)
    (sellPercentage : ℚ) (sample : FeeSample) : ℚ :=
  if selectedFeeType = FeeTier.custom ∧ cfg.feeLevels FeeTier.custom > 0 then
    cfg.feeLevels FeeTier.custom
  else if cfg.dynamicFee then
    let baseFee := cfg.feeLevels selectedFeeType
    match sample with
    | FeeSample.ok fees =>
      if fees.length > 0 then
        ((⌊baseFee * min (dynamicMultiplier fees * sellMultiplierBoost sellPercentage)
            (cfg.priorityFeeMultiplier * (3 / 2))⌋ : ℤ) : ℚ)
      else
        ((⌊baseFee * cfg.priorityFeeMultiplier⌋ : ℤ) : ℚ)
    | FeeSample.fail =>
      ((⌊baseFee * cfg.priorityFeeMultiplier⌋ : ℤ) : ℚ)
  else
    cfg.feeLevels selectedFeeType

/-! ## Legacy-payload compute-budget injection
(`buyToken.js` lines 325–347, `sellToken.js` lines 359–384) -/

/-- A transaction instruction: the two compute-budget instructions the
submitter can inject, or an opaque swap instruction from the decoded
legacy payload. -/
inductive Ix
  | computeUnitLimit (units : ℚ)
  | computeUnitPrice (microLamports : ℤ)
  | swap (n : ℕ)
deriving DecidableEq, Repr

/-- Whether an instruction is the compute-unit-price instruction. -/
def Ix.isPrice : Ix → Bool
  | Ix.computeUnitPrice _ => true
  | _ => false

/-- Value `priorityFeeMicroLamports` of the buy legacy fallback
(`buyToken.js` line 334):
`Math.floor((computeLimit / 10) * config.priorityFeeMultiplier)`. -/
def buyPriorityFeeMicroLamports (computeLimit : ℚ) (mult : ℚ) : ℤ :=
  ⌊computeLimit / 10 * mult⌋

/-- Value `priorityFeeMicroLamports` of the sell legacy fallback
(`sellToken.js` lines 368–369):
`Math.floor((computeLimit / 10) * config.priorityFeeMultiplier * sellMultiplierBoost)`. -/
def sellPriorityFeeMicroLamports (computeLimit : ℚ) (mult : ℚ)
    (sellPercentage : ℚ) : ℤ :=
  ⌊computeLimit / 10 * mult * sellMultiplierBoost sellPercentage⌋

/-- Compute-budget injection of the buy legacy fallback (`buyToken.js`
lines 325–347): when `computeLimit` is truthy, the price instruction is
unshifted first (when `priorityFeeMultiplier > 1`) and the limit
instruction is unshifted after it, so the limit instruction ends up at the
head of the final list. -/
def augmentLegacyBuy (computeLimit : ℚ) (mult : ℚ) (ixs : List Ix) : List Ix :=
  if computeLimit ≠ 0 then
    let withPrice :=
      if mult > 1 then
        Ix.computeUnitPrice (buyPriorityFeeMicroLamports computeLimit mult) :: ixs
      else ixs
    Ix.computeUnitLimit computeLimit :: withPrice
  else ixs

/-- Compute-budget injection of the sell legacy fallback (`sellToken.js`
lines 359–384): identical control flow to the buy fallback, with the
sell-boosted priority fee. -/
def augmentLegacySell (computeLimit : ℚ) (mult : ℚ) (sellPercentage : ℚ)
    (ixs : List Ix) : List Ix :=
  if computeLimit ≠ 0 then
    let withPrice :=
      if mult > 1 then
        Ix.computeUnitPrice
          (sellPriorityFeeMicroLamports computeLimit mult sellPercentage) :: ixs
      else ixs
    Ix.computeUnitLimit computeLimit :: withPrice
  else ixs

/-! ## Swap builder shape probing
(`buyToken.js` lines 156–236, `sellToken.js` lines 198–281) -/

/-- The request shapes the code can send to the aggregator's swap
endpoint: the combined top-level `quoteResponse` shape, the nested
`swapRequest.quoteResponse` shape, the nested `swapRequest.route` shape,
and the top-level `route` shape. -/
inductive SwapShape
  | combined
  | nestedQuote
  | nestedRoute
  | topRoute
deriving DecidableEq, Repr

/-- A non-null response from the swap endpoint; `txData` is the
transaction byte string the extraction step finds in it (under
`swapTransaction`, `data.swapTransaction`, or a long string field of
`data`), if any. -/
structure SwapResponse where
  txData : Option ℕ
deriving DecidableEq, Repr

/-- Outcome of the swap-build phase: a transaction byte string, failure
with all probed shapes returning null, or an accepted response in which no
transaction data was found. -/
inductive SwapBuildOutcome
  | built (tx : ℕ)
  | noResponse
  | noTxData
deriving DecidableEq, Repr

/-- Shape probing of `buyToken.js` (lines 156–198): `swapRequest.quoteResponse`
first, then `swapRequest.route`, then the top-level `route` shape; each
attempt runs only if all previous attempts returned null. -/
def buySwapProbe (o : SwapShape → Option SwapResponse) : Option SwapResponse :=
  match o SwapShape.nestedQuote with
  | some r => some r
  | none =>
    match o SwapShape.nestedRoute with
    | some r => some r
    | none => o SwapShape.topRoute

/-- Shape probing of `sellToken.js` (lines 199–243): the combined top-level
`quoteResponse` shape is tried first but only when the quote was detected
as v6 (`routePlan` present); then `swapRequest.quoteResponse`, then
`swapRequest.route`. -/
def sellSwapProbe (isV6Api : Bool) (o : SwapShape → Option SwapResponse) :
    Option SwapResponse :=
  let first := if isV6Api then o SwapShape.combined else none
  match first with
  | some r => some r
  | none =>
    match o SwapShape.nestedQuote with
    | some r => some r
    | none => o SwapShape.nestedRoute

/-- Transaction-data extraction applied to the first accepted response
(`buyToken.js` lines 213–236, `sellToken.js` lines 258–281): a null probe
result reports `noResponse`; an accepted response without a transaction
byte string reports `noTxData` without probing further shapes. -/
def buildOutcome (probe : Option SwapResponse) : SwapBuildOutcome :=
  match probe with
  | none => SwapBuildOutcome.noResponse
  | some r =>
    match r.txData with
    | some t => SwapBuildOutcome.built t
    | none => SwapBuildOutcome.noTxData

/-- The buy swap-build phase as a whole. -/
def buyBuild (o : SwapShape → Option SwapResponse) : SwapBuildOutcome :=
  buildOutcome (buySwapProbe o)

/-- The sell swap-build phase as a whole. -/
def sellBuild (isV6Api : Bool) (o : SwapShape → Option SwapResponse) :
    SwapBuildOutcome :=
  buildOutcome (sellSwapProbe isV6Api o)

/-- Generic ordered probing: the first shape whose response is non-null
wins. -/
def probeShapes (o : SwapShape → Option SwapResponse) :
    List SwapShape → Option SwapResponse
  | [] => none
  | s :: rest =>
    match o s with
    | some r => some r
    | none => probeShapes o rest

/-- Modelled from the spec: the claimed fixed priority order
(a) combined quote-embedding request, (b) nested `swapRequest.quoteResponse`,
(c) nested `swapRequest.route`. -/
def specShapeOrder : List SwapShape :=
  [SwapShape.combined, SwapShape.nestedQuote, SwapShape.nestedRoute]

/-- The shape order the buy code actually probes. -/
def buyShapeOrder : List SwapShape :=
  [SwapShape.nestedQuote, SwapShape.nestedRoute, SwapShape.topRoute]

/-- The shape order the sell code actually probes, by v6 detection. -/
def sellShapeOrder (isV6Api : Bool) : List SwapShape :=
  if isV6Api then
    [SwapShape.combined, SwapShape.nestedQuote, SwapShape.nestedRoute]
  else
    [SwapShape.nestedQuote, SwapShape.nestedRoute]

/-! ## Transaction submission: wire-format fallback
(`buyToken.js` lines 247–412, `sellToken.js` lines 287–449) -/

/-- Exports `module.exports` of `buyToken.js` (lines 425–427). -/
def buyTokenModuleExports : List String := ["buyToken"]

/-- Exports `module.exports` of `connectionManager.js` (lines 200–204). -/
def connectionManagerModuleExports : List String :=
  ["getConnection", "testConnection", "verifyTransactionOnChain"]

/-- Line 8 of `sellToken.js` destructures `verifyTransactionOnChain` from the
buyToken module; the binding is defined only when that module exports the
name (it does not, so calling it throws a TypeError). -/
def sellVerifyImportDefined : Bool :=
  buyTokenModuleExports.contains "verifyTransactionOnChain"

/-- Line 9 of `buyToken.js` destructures `verifyTransactionOnChain` from the
connection manager module, which does export it. -/
def buyVerifyImportDefined : Bool :=
  connectionManagerModuleExports.contains "verifyTransactionOnChain"

/-- Outcome of calling a possibly-undefined function binding. -/
inductive CallOutcome (α : Type)
  | returns (a : α)
  | throws
deriving DecidableEq, Repr

/-- The call `verifyTransactionOnChain(...)` inside `sellToken.js`
(lines 320 and 409): returns the verification result when the import is
defined, throws otherwise. -/
def sellVerifyCall (vr : Bool) : CallOutcome Bool :=
  if sellVerifyImportDefined then CallOutcome.returns vr else CallOutcome.throws

/-- The call `verifyTransactionOnChain(...)` inside `buyToken.js`
(lines 284 and 373): the import is defined, so the call returns. -/
def buyVerifyCall (vr : Bool) : CallOutcome Bool :=
  if buyVerifyImportDefined then CallOutcome.returns vr else CallOutcome.throws

/-- Observable submission events, in execution order: the two decode
attempts (with their outcome), the two send attempts, and calls to the
verification helper (with whether the call threw). -/
inductive SubmitEvent
  | decodeVersioned (ok : Bool)
  | sendVersioned (ok : Bool)
  | verifyAttempt (threw : Bool)
  | decodeLegacy (ok : Bool)
  | sendLegacy (ok : Bool)
deriving DecidableEq, Repr

/-- Whether an event is a legacy decode attempt. -/
def SubmitEvent.isDecodeLegacy : SubmitEvent → Bool
  | SubmitEvent.decodeLegacy _ => true
  | _ => false

/-- Which `return` site of the submitter produced the final result:
the versioned-path verification return, the legacy-path verification
return, or the `catch (legacyError)` return
(`Transaction deserialization failed`). -/
inductive ReturnSite
  | versionedVerified
  | legacyVerified
  | legacyCatch
deriving DecidableEq, Repr

/-- The final result of the submission phase: the returned `success` flag
and the return site that produced it. -/
structure SubmitResult where
  success : Bool
  site : ReturnSite
deriving DecidableEq, Repr

/-- Environment for one submission: whether each fallible step succeeds,
and the success flag the verification helper would report on each path
were it called and returned. -/
structure SubmitEnv where
  versionedDecodes : Bool
  versionedSendOk : Bool
  legacyDecodes : Bool
  legacySendOk : Bool
  verifySuccessVersioned : Bool
  verifySuccessLegacy : Bool
deriving DecidableEq, Repr

/-- Legacy fallback of `sellToken.js` (lines 346–449): decode with
`Transaction.from`, inject budget instructions, send with
`sendAndConfirmTransaction`, then call the (undefined) verification
helper; any throw inside is caught by `catch (legacyError)` and returned
as a deserialization failure. -/
def sellLegacyFallback (env : SubmitEnv) (pre : List SubmitEvent) :
    SubmitResult × List SubmitEvent :=
  if env.legacyDecodes then
    if env.legacySendOk then
      match sellVerifyCall env.verifySuccessLegacy with
      | CallOutcome.returns vr =>
        (⟨vr, ReturnSite.legacyVerified⟩,
          pre ++ [SubmitEvent.decodeLegacy true, SubmitEvent.sendLegacy true,
            SubmitEvent.verifyAttempt false])
      | CallOutcome.throws =>
        (⟨false, ReturnSite.legacyCatch⟩,
          pre ++ [SubmitEvent.decodeLegacy true, SubmitEvent.sendLegacy true,
            SubmitEvent.verifyAttempt true])
    else
      (⟨false, ReturnSite.legacyCatch⟩,
        pre ++ [SubmitEvent.decodeLegacy true, SubmitEvent.sendLegacy false])
  else
    (⟨false, ReturnSite.legacyCatch⟩, pre ++ [SubmitEvent.decodeLegacy false])

/-- Submission phase of `sellToken.js` (lines 287–449): try
`VersionedTransaction.deserialize`, sign and `sendTransaction`, then call
the verification helper; any throw inside the versioned `try` block —
including the verification call itself, whose import is undefined —
transfers control to the legacy fallback. -/
def sellSubmit (env : SubmitEnv) : SubmitResult × List SubmitEvent :=
  if env.versionedDecodes then
    if env.versionedSendOk then
      match sellVerifyCall env.verifySuccessVersioned with
      | CallOutcome.returns vr =>
        (⟨vr, ReturnSite.versionedVerified⟩,
          [SubmitEvent.decodeVersioned true, SubmitEvent.sendVersioned true,
            SubmitEvent.verifyAttempt false])
      | CallOutcome.throws =>
        sellLegacyFallback env
          [SubmitEvent.decodeVersioned true, SubmitEvent.sendVersioned true,
            SubmitEvent.verifyAttempt true]
    else
      sellLegacyFallback env
        [SubmitEvent.decodeVersioned true, SubmitEvent.sendVersioned false]
  else
    sellLegacyFallback env [SubmitEvent.decodeVersioned false]

/-- Legacy fallback of `buyToken.js` (lines 312–412): same control flow as
the sell fallback, with the working verification import. -/
def buyLegacyFallback (env : SubmitEnv) (pre : List SubmitEvent) :
    SubmitResult × List SubmitEvent :=
  if env.legacyDecodes then
    if env.legacySendOk then
      match buyVerifyCall env.verifySuccessLegacy with
      | CallOutcome.returns vr =>
        (⟨vr, ReturnSite.legacyVerified⟩,
          pre ++ [SubmitEvent.decodeLegacy true, SubmitEvent.sendLegacy true,
            SubmitEvent.verifyAttempt false])
      | CallOutcome.throws =>
        (⟨false, ReturnSite.legacyCatch⟩,
          pre ++ [SubmitEvent.decodeLegacy true, SubmitEvent.sendLegacy true,
            SubmitEvent.verifyAttempt true])
    else
      (⟨false, ReturnSite.legacyCatch⟩,
        pre ++ [SubmitEvent.decodeLegacy true, SubmitEvent.sendLegacy false])
  else
    (⟨false, ReturnSite.legacyCatch⟩, pre ++ [SubmitEvent.decodeLegacy false])

/-- Submission phase of `buyToken.js` (lines 247–412): try the versioned
wire format, falling back to the legacy format when anything inside the
versioned `try` block throws (deserialization or `sendTransaction`). -/
def buySubmit (env : SubmitEnv) : SubmitResult × List SubmitEvent :=
  if env.versionedDecodes then
    if env.versionedSendOk then
      match buyVerifyCall env.verifySuccessVersioned with
      | CallOutcome.returns vr =>
        (⟨vr, ReturnSite.versionedVerified⟩,
          [SubmitEvent.decodeVersioned true, SubmitEvent.sendVersioned true,
            SubmitEvent.verifyAttempt false])
      | CallOutcome.throws =>
        buyLegacyFallback env
          [SubmitEvent.decodeVersioned true, SubmitEvent.sendVersioned true,
            SubmitEvent.verifyAttempt true]
    else
      buyLegacyFallback env
        [SubmitEvent.decodeVersioned true, SubmitEvent.sendVersioned false]
  else
    buyLegacyFallback env [SubmitEvent.decodeVersioned false]

/-! ## Finality verification (`connectionManager.js` lines 68–198) -/

/-- Outcome of one `getSignatureStatuses` poll: the call threw, the status
entry was null, or a status with an error flag and a confirmation level
(`finalized`, `confirmed`, or anything else). -/
inductive PollResult
  | thrown
  | noStatus
  | status (err : Bool) (conf : String)
deriving DecidableEq, Repr

/-- Outcome of the first direct `getTransaction` lookup (line 112): the
call threw, the transaction was null, or it was found with an error
flag. -/
inductive TxLookup
  | thrown
  | notFound
  | found (metaErr : Bool)
deriving DecidableEq, Repr

/-- Outcome of the second `getTransaction` lookup (line 132), inside the
verification `try`: thrown, null, or found with an error flag and a
`confirmationStatus` field value (`undefined` modelled as a non-finalized
string). -/
inductive Tx2Lookup
  | thrown
  | missing
  | found (metaErr : Bool) (confStatus : String)
deriving DecidableEq, Repr

/-- Outcome of one `getSignatureStatus` call in the finalization loop
(line 159): thrown (which aborts the surrounding `try`), finalized, or
anything else. -/
inductive FinalPoll
  | thrown
  | finalized
  | notFinalized
deriving DecidableEq, Repr

/-- The `status` strings the verifier can return. -/
inductive VStatus
  | failed
  | finalized
  | notFinalized
  | verificationFailed
  | verificationError
  | notFound
deriving DecidableEq, Repr

/-- The verifier's returned record: the `success` flag and the `status`
string. -/
structure VResult where
  success : Bool
  status : VStatus
deriving DecidableEq, Repr

/-- Ledger responses for one verification run, indexed by call number. -/
structure VerifyEnv where
  polls : ℕ → PollResult
  lookup1 : TxLookup
  lookup2 : Tx2Lookup
  finalPolls : ℕ → FinalPoll

/-- How the polling loop (lines 78–107) ended. -/
inductive PollPhase
  | failedNow
  | finalizedNow
  | exhausted
deriving DecidableEq, Repr

/-- The polling loop of lines 78–107, with the number of
`getSignatureStatuses` calls made.  `retries` is decremented on every
iteration — also when the poll throws or returns no status — and the loop
exits early only on an error status (→ `failedNow`) or a finalized status
(→ `finalizedNow`). -/
def runPolls (polls : ℕ → PollResult) : ℕ → ℕ → PollPhase × ℕ
  | 0, _ => (PollPhase.exhausted, 0)
  | retries + 1, i =>
    match polls i with
    | PollResult.status true _ => (PollPhase.failedNow, 1)
    | PollResult.status false conf =>
      if conf = "finalized" then (PollPhase.finalizedNow, 1)
      else
        let r := runPolls polls retries (i + 1)
        (r.1, r.2 + 1)
    | _ =>
      let r := runPolls polls retries (i + 1)
      (r.1, r.2 + 1)

/-- The finalization re-check loop of lines 155–165 (up to
`retriesForFinalization = 10` iterations of `getSignatureStatus`), with
its call count.  `none` means an iteration threw, aborting the
surrounding `try`. -/
def finalizationLoop (fp : ℕ → FinalPoll) : ℕ → ℕ → Option Bool × ℕ
  | 0, _ => (some false, 0)
  | fuel + 1, i =>
    match fp i with
    | FinalPoll.thrown => (none, 1)
    | FinalPoll.finalized => (some true, 1)
    | FinalPoll.notFinalized =>
      let r := finalizationLoop fp fuel (i + 1)
      (r.1, r.2 + 1)

/-- The `txSuccess` verification block of lines 130–191: second lookup,
metadata error check, finalization re-check, with any throw caught at
line 183 and reported as `verification_error`. -/
def verifyPhase2 (env : VerifyEnv) : VResult :=
  match env.lookup2 with
  | Tx2Lookup.thrown => ⟨false, VStatus.verificationError⟩
  | Tx2Lookup.missing => ⟨false, VStatus.verificationFailed⟩
  | Tx2Lookup.found true _ => ⟨false, VStatus.failed⟩
  | Tx2Lookup.found false conf =>
    if conf = "finalized" then ⟨true, VStatus.finalized⟩
    else
      match (finalizationLoop env.finalPolls 10 0).1 with
      | none => ⟨false, VStatus.verificationError⟩
      | some true => ⟨true, VStatus.finalized⟩
      | some false => ⟨false, VStatus.notFinalized⟩

/-- Function `verifyTransactionOnChain` of `connectionManager.js` (lines 68–198):
poll up to `maxRetries` times; on an error status return `failed`; on a
finalized status proceed to the verification block; on exhaustion fall
back to one direct lookup, which can itself resolve to `failed`, lead to
the verification block, or leave the transaction `not_found`. -/
def verifyTransactionOnChain (env : VerifyEnv) (maxRetries : ℕ) : VResult :=
  match (runPolls env.polls maxRetries 0).1 with
  | PollPhase.failedNow => ⟨false, VStatus.failed⟩
  | PollPhase.finalizedNow => verifyPhase2 env
  | PollPhase.exhausted =>
    match env.lookup1 with
    | TxLookup.found true => ⟨false, VStatus.failed⟩
    | TxLookup.found false => verifyPhase2 env
    | _ => ⟨false, VStatus.notFound⟩

/-- Number of ledger calls the verification block makes: the second
lookup plus the finalization re-check loop. -/
def verifyPhase2Calls (env : VerifyEnv) : ℕ :=
  match env.lookup2 with
  | Tx2Lookup.found false conf =>
    if conf = "finalized" then 1
    else 1 + (finalizationLoop env.finalPolls 10 0).2
  | _ => 1

/-- Total number of ledger calls one verification run makes: status polls
plus the secondary lookups. -/
def verifyTotalCalls (env : VerifyEnv) (maxRetries : ℕ) : ℕ :=
  (runPolls env.polls maxRetries 0).2 +
    match (runPolls env.polls maxRetries 0).1 with
    | PollPhase.failedNow => 0
    | PollPhase.finalizedNow => verifyPhase2Calls env
    | PollPhase.exhausted =>
      1 +
        match env.lookup1 with
        | TxLookup.found true => 0
        | TxLookup.found false => verifyPhase2Calls env
        | _ => 0

/-- The trade-result record a pipeline returns to its caller: the
`success` flag and the `status` field copied from the verification
result. -/
structure TradeOutcome where
  success : Bool
  status : VStatus
deriving DecidableEq, Repr

/-- Result construction of `buyToken.js` lines 284–310: the trade result
copies the verifier's `status` and sets `success` exactly when the
verifier reported success. -/
def buyResultFromVerification (vr : VResult) : TradeOutcome :=
  if vr.success then ⟨true, vr.status⟩ else ⟨false, vr.status⟩

/-! ## Spec-side comparison definitions and concrete test fixtures -/

/-- Modelled from the spec: the fee formula claimed for dynamic mode with a
non-empty sample, `floor(baseFee * min(max(1, avg/referenceUnit) * boost,
configuredCeiling * 1.5))`. -/
def claimedDynamicFee (baseFee ceiling boost : ℚ) (fees : List ℚ) : ℚ :=
  ((⌊baseFee * min (dynamicMultiplier fees * boost) (ceiling * (3 / 2))⌋ : ℤ) : ℚ)

/-- The sell-path compute-unit price before flooring, as a function of the
shared fee ingredients. -/
def idealSellPrice (baseFee dyn mult boost : ℚ) : ℚ :=
  baseFee * min (dyn * boost) (mult * (3 / 2)) / 10 * mult * boost

/-- The buy-path compute-unit price before flooring, over the same
ingredients. -/
def idealBuyPrice (baseFee dyn mult : ℚ) : ℚ :=
  baseFee * min dyn mult / 10 * mult

/-- A fee configuration with a 10000-unit medium tier, dynamic fees on, and
multiplier ceiling 3, used to evaluate the fee functions on concrete
inputs. -/
def cfgDyn : Config where
  feeLevels := fun t =>
    match t with
    | FeeTier.medium => 10000
    | FeeTier.high => 20000
    | _ => 0
  defaultFee := FeeTier.medium
  dynamicFee := true
  priorityFeeMultiplier := 3
  antiMEV := false

/-- A static-fee configuration (dynamic fees disabled), used to evaluate
the fee-tier upgrade scenario on concrete inputs. -/
def cfgStatic : Config where
  feeLevels := fun t =>
    match t with
    | FeeTier.low => 5000
    | FeeTier.medium => 10000
    | FeeTier.high => 20000
    | FeeTier.urgent => 30000
    | FeeTier.custom => 0
  defaultFee := FeeTier.medium
  dynamicFee := false
  priorityFeeMultiplier := 2
  antiMEV := false

/-- A swap oracle whose combined-shape and nested-quote-shape responses
both carry transaction data. -/
def oracleBoth : SwapShape → Option SwapResponse := fun s =>
  match s with
  | SwapShape.combined => some ⟨some 7⟩
  | SwapShape.nestedQuote => some ⟨some 8⟩
  | _ => none

/-- A swap oracle whose first accepted response carries no transaction
data while a later shape would have provided one. -/
def oracleNoTx : SwapShape → Option SwapResponse := fun s =>
  match s with
  | SwapShape.nestedQuote => some ⟨none⟩
  | SwapShape.nestedRoute => some ⟨some 9⟩
  | _ => none

/-! ## Theorems -/

/-- C1 (counterexample): with `computeLimit = 100`, `priorityFeeMultiplier
= 2` and one swap instruction, the submitted legacy instruction list is
`[computeUnitLimit, computeUnitPrice, swap]` — it begins with the limit
instruction, not the price instruction as the claim states. -/
theorem c1_counterexample :
    augmentLegacyBuy 100 2 [Ix.swap 0] =
      [Ix.computeUnitLimit 100, Ix.computeUnitPrice 20, Ix.swap 0] ∧
    (augmentLegacyBuy 100 2 [Ix.swap 0]).head?.map Ix.isPrice = some false := by
  have h : augmentLegacyBuy 100 2 [Ix.swap 0] =
      [Ix.computeUnitLimit 100, Ix.computeUnitPrice 20, Ix.swap 0] := by
    norm_num [augmentLegacyBuy, buyPriorityFeeMicroLamports]
  exact ⟨h, by rw [h]; rfl⟩

/-- C1 (amended): whenever versioned decoding fails over to the legacy
path with a truthy compute limit and `priorityFeeMultiplier > 1`, the
submitted instruction list of both the buy and the sell fallback begins
with the compute-unit-limit instruction, then the compute-unit-price
instruction, then all original swap instructions in order. -/
theorem c1_amended (computeLimit mult pct : ℚ) (ixs : List Ix)
    (h0 : computeLimit ≠ 0) (h1 : 1 < mult) :
    augmentLegacyBuy computeLimit mult ixs =
      Ix.computeUnitLimit computeLimit ::
        Ix.computeUnitPrice (buyPriorityFeeMicroLamports computeLimit mult) :: ixs ∧
    augmentLegacySell computeLimit mult pct ixs =
      Ix.computeUnitLimit computeLimit ::
        Ix.computeUnitPrice (sellPriorityFeeMicroLamports computeLimit mult pct) :: ixs := by
  constructor <;> simp [augmentLegacyBuy, augmentLegacySell, h0, h1]

/-- C1 (witness): the amended ordering at `computeLimit = 100`, `mult = 2`,
`pct = 80`, one swap instruction. -/
theorem c1_amended_witness :
    augmentLegacyBuy 100 2 [Ix.swap 0] =
      Ix.computeUnitLimit 100 ::
        Ix.computeUnitPrice (buyPriorityFeeMicroLamports 100 2) :: [Ix.swap 0] ∧
    augmentLegacySell 100 2 80 [Ix.swap 0] =
      Ix.computeUnitLimit 100 ::
        Ix.computeUnitPrice (sellPriorityFeeMicroLamports 100 2 80) :: [Ix.swap 0] :=
  c1_amended 100 2 80 [Ix.swap 0] (by norm_num) (by norm_num)

/-- C2 (code bug): in `src/connectionManager.js` the singleton cache
ignores the requested commitment — after a first request at `processed`, a
later request at `confirmed` returns the cached `processed` handle — while
the fixed connection manager (`src/unnamed/part_001`) returns, for every
pair of requested levels, a handle carrying the second requested level,
and a repeated request at the same level returns the cached handle without
constructing or changing the cache. -/
theorem c2_divergence :
    (getConnection (getConnection none false "https://rpc" "processed").2
        false "https://rpc" "confirmed").1.commitment = "processed" ∧
    (validCommitments.all fun l1 =>
      validCommitments.all fun l2 =>
        (getConnectionFixed (getConnectionFixed ConnCache.empty false "https://rpc" l1).2
            false "https://rpc" l2).1.commitment = l2) = true ∧
    (validCommitments.all fun l =>
      let r1 := getConnectionFixed ConnCache.empty false "https://rpc" l
      let r2 := getConnectionFixed r1.2 false "https://rpc" l
      r2.1 = r1.1 ∧ r2.2 = r1.2) = true := by
  refine ⟨rfl, by decide, by decide⟩

/-- C3 (counterexample): on the buy path with medium tier 10000, ceiling 3
and a single fee observation of 20000, the code computes
`floor(10000 * min(4, 3)) = 30000`, while the claimed formula with buy
boost 1.2 and clipping at `ceiling * 1.5` gives
`floor(10000 * min(4.8, 4.5)) = 45000`. -/
theorem c3_counterexample :
    buyComputeLimit cfgDyn FeeTier.medium (FeeSample.ok [20000]) = 30000 ∧
    claimedDynamicFee (cfgDyn.feeLevels FeeTier.medium) cfgDyn.priorityFeeMultiplier
      (6 / 5) [20000] = 45000 ∧
    buyComputeLimit cfgDyn FeeTier.medium (FeeSample.ok [20000]) ≠
      claimedDynamicFee (cfgDyn.feeLevels FeeTier.medium) cfgDyn.priorityFeeMultiplier
        (6 / 5) [20000] := by
  refine ⟨?_, ?_, ?_⟩ <;>
    norm_num [buyComputeLimit, claimedDynamicFee, cfgDyn, dynamicMultiplier,
      avgPriorityMultiplier]

/-- C3 (amended): in dynamic-fee mode with a non-empty sample, the sell
fee equals the claimed formula
`floor(baseFee * min(max(1, avg/5000) * boost, ceiling * 1.5))` with
boost 1.5 when `sellPercentage ≥ 75` else 1.2, while the buy fee carries
no boost and clips at the ceiling itself:
`floor(baseFee * min(max(1, avg/5000), ceiling))`; when sampling throws or
returns an empty sample, both sides degrade to
`floor(baseFee * ceiling)` without raising. -/
theorem c3_amended (cfg : Config) (tier : FeeTier) (pct : ℚ) (fees : List ℚ)
    (hdyn : cfg.dynamicFee = true)
    (hcust : ¬(tier = FeeTier.custom ∧ 0 < cfg.feeLevels FeeTier.custom))
    (hne : 0 < fees.length) :
    sellComputeLimit cfg tier pct (FeeSample.ok fees) =
      claimedDynamicFee (cfg.feeLevels tier) cfg.priorityFeeMultiplier
        (sellMultiplierBoost pct) fees ∧
    buyComputeLimit cfg tier (FeeSample.ok fees) =
      ((⌊cfg.feeLevels tier * min (dynamicMultiplier fees) cfg.priorityFeeMultiplier⌋ : ℤ) : ℚ) ∧
    sellComputeLimit cfg tier pct FeeSample.fail =
      ((⌊cfg.feeLevels tier * cfg.priorityFeeMultiplier⌋ : ℤ) : ℚ) ∧
    buyComputeLimit cfg tier FeeSample.fail =
      ((⌊cfg.feeLevels tier * cfg.priorityFeeMultiplier⌋ : ℤ) : ℚ) ∧
    sellComputeLimit cfg tier pct (FeeSample.ok []) =
      ((⌊cfg.feeLevels tier * cfg.priorityFeeMultiplier⌋ : ℤ) : ℚ) ∧
    buyComputeLimit cfg tier (FeeSample.ok []) =
      ((⌊cfg.feeLevels tier * cfg.priorityFeeMultiplier⌋ : ℤ) : ℚ) := by
  have hne' : fees.length > 0 := hne
  refine ⟨?_, ?_, ?_, ?_, ?_, ?_⟩ <;>
    simp [sellComputeLimit, buyComputeLimit, claimedDynamicFee, hdyn, hcust, hne']

/-- C3 (witness): the amended sell formula at medium tier 10000, ceiling
3, `sellPercentage = 80`, one fee observation of 20000. -/
theorem c3_amended_witness :
    sellComputeLimit cfgDyn FeeTier.medium 80 (FeeSample.ok [20000]) =
      claimedDynamicFee (cfgDyn.feeLevels FeeTier.medium) cfgDyn.priorityFeeMultiplier
        (sellMultiplierBoost 80) [20000] :=
  (c3_amended cfgDyn FeeTier.medium 80 [20000] rfl (by simp [cfgDyn]) (by simp)).1

/-- C4 (counterexample): with an oracle answering both the combined
quote-embedding shape and the nested `swapRequest.quoteResponse` shape,
the buy builder (and the sell builder without v6 detection) accepts the
nested shape, not the combined shape the claimed priority order would
accept first; and with an oracle whose first accepted response carries no
transaction data, the buy builder fails with `noTxData` even though a
later shape would have returned a transaction, instead of exhausting all
shapes. -/
theorem c4_counterexample :
    buyBuild oracleBoth = SwapBuildOutcome.built 8 ∧
    buildOutcome (probeShapes oracleBoth specShapeOrder) = SwapBuildOutcome.built 7 ∧
    sellBuild false oracleBoth = SwapBuildOutcome.built 8 ∧
    buyBuild oracleNoTx = SwapBuildOutcome.noTxData ∧
    oracleNoTx SwapShape.nestedRoute = some ⟨some 9⟩ := by
  refine ⟨rfl, rfl, rfl, rfl, rfl⟩

/-- C4 (amended): the buy builder probes the nested
`swapRequest.quoteResponse` shape, then the nested `swapRequest.route`
shape, then a top-level `route` shape; the sell builder probes the
combined quote-embedding shape only when the quote was detected as v6,
then the two nested shapes; each accepts the first non-null response and
extracts the transaction byte string from it, and reports `noResponse`
when every probed shape returned null. -/
theorem c4_amended (o : SwapShape → Option SwapResponse) (isV6Api : Bool) :
    buyBuild o = buildOutcome (probeShapes o buyShapeOrder) ∧
    sellBuild isV6Api o = buildOutcome (probeShapes o (sellShapeOrder isV6Api)) ∧
    ((∀ s ∈ buyShapeOrder, o s = none) → buyBuild o = SwapBuildOutcome.noResponse) ∧
    ((∀ s ∈ sellShapeOrder isV6Api, o s = none) →
      sellBuild isV6Api o = SwapBuildOutcome.noResponse) := by
  refine ⟨?_, ?_, ?_, ?_⟩
  · cases h1 : o SwapShape.nestedQuote <;> cases h2 : o SwapShape.nestedRoute <;>
      cases h3 : o SwapShape.topRoute <;>
      simp [buyBuild, buySwapProbe, buyShapeOrder, probeShapes, h1, h2, h3]
  · cases isV6Api <;>
      cases h0 : o SwapShape.combined <;> cases h1 : o SwapShape.nestedQuote <;>
        cases h2 : o SwapShape.nestedRoute <;>
        simp [sellBuild, sellSwapProbe, sellShapeOrder, probeShapes, h0, h1, h2]
  · intro h
    have h1 := h SwapShape.nestedQuote (by simp [buyShapeOrder])
    have h2 := h SwapShape.nestedRoute (by simp [buyShapeOrder])
    have h3 := h SwapShape.topRoute (by simp [buyShapeOrder])
    simp [buyBuild, buySwapProbe, buildOutcome, h1, h2, h3]
  · intro h
    have h1 := h SwapShape.nestedQuote (by cases isV6Api <;> simp [sellShapeOrder])
    have h2 := h SwapShape.nestedRoute (by cases isV6Api <;> simp [sellShapeOrder])
    cases hv : isV6Api
    · simp [sellBuild, sellSwapProbe, buildOutcome, h1, h2, hv]
    · have h0 := h SwapShape.combined (by simp [sellShapeOrder, hv])
      simp [sellBuild, sellSwapProbe, buildOutcome, h0, h1, h2, hv]

/-- C4 (witness): the amended characterization at an all-null oracle. -/
theorem c4_amended_witness :
    buyBuild (fun _ => none) = SwapBuildOutcome.noResponse :=
  (c4_amended (fun _ => none) true).2.2.1 (fun _ _ => rfl)

/-- C5: `buyToken.js` exports only `buyToken`, so the
`verifyTransactionOnChain` binding imported by `sellToken.js` is
undefined; consequently no sell result is ever produced by the
versioned-path verification return, and in every sell execution where the
versioned transaction decodes and sends successfully, the verification
call throws and control enters the legacy fallback, which attempts to
decode (and, on success, resubmit) the same payload a second time. -/
theorem c5_theorem :
    sellVerifyImportDefined = false ∧
    (∀ env : SubmitEnv, (sellSubmit env).1.site ≠ ReturnSite.versionedVerified) ∧
    (∀ env : SubmitEnv, env.versionedDecodes = true → env.versionedSendOk = true →
      ∃ rest, (sellSubmit env).2 =
        [SubmitEvent.decodeVersioned true, SubmitEvent.sendVersioned true,
          SubmitEvent.verifyAttempt true, SubmitEvent.decodeLegacy env.legacyDecodes]
          ++ rest) := by
  refine ⟨rfl, ?_, ?_⟩
  · rintro ⟨vd, vs, ld, ls, vv, vl⟩
    cases vd <;> cases vs <;> cases ld <;> cases ls <;>
      simp [sellSubmit, sellLegacyFallback, sellVerifyCall, sellVerifyImportDefined,
        buyTokenModuleExports]
  · rintro ⟨vd, vs, ld, ls, vv, vl⟩ h1 h2
    simp only at h1 h2
    subst h1; subst h2
    cases ld <;> cases ls <;> exact ⟨_, rfl⟩

/-- C5 (witness): a sell execution whose versioned transaction decodes and
sends successfully still produces a trace entering the legacy decode. -/
theorem c5_theorem_witness :
    ∃ rest, (sellSubmit ⟨true, true, true, true, true, true⟩).2 =
      [SubmitEvent.decodeVersioned true, SubmitEvent.sendVersioned true,
        SubmitEvent.verifyAttempt true, SubmitEvent.decodeLegacy true] ++ rest :=
  c5_theorem.2.2 ⟨true, true, true, true, true, true⟩ rfl rfl

/-- C6: when selling with `sellPercentage ≥ 50` and a chosen `medium`
tier, the tier is upgraded to `high` before the fee policy runs; and with
dynamic fees disabled the computed fee is the static configured high-tier
fee, unmodified. -/
theorem c6_theorem :
    (∀ (optFeeType : Option FeeTier) (cfg : Config) (pct : ℚ),
      50 ≤ pct → optFeeType.getD cfg.defaultFee = FeeTier.medium →
      sellSelectedFeeType optFeeType cfg pct = FeeTier.high) ∧
    (∀ (optFeeType : Option FeeTier) (cfg : Config) (pct : ℚ) (sample : FeeSample),
      50 ≤ pct → optFeeType.getD cfg.defaultFee = FeeTier.medium →
      cfg.dynamicFee = false →
      sellComputeLimit cfg (sellSelectedFeeType optFeeType cfg pct) pct sample =
        cfg.feeLevels FeeTier.high) := by
  have hsel : ∀ (optFeeType : Option FeeTier) (cfg : Config) (pct : ℚ),
      50 ≤ pct → optFeeType.getD cfg.defaultFee = FeeTier.medium →
      sellSelectedFeeType optFeeType cfg pct = FeeTier.high := by
    intro optFeeType cfg pct h50 hmed
    simp [sellSelectedFeeType, hmed, h50]
  refine ⟨hsel, ?_⟩
  intro optFeeType cfg pct sample h50 hmed hdyn
  rw [hsel optFeeType cfg pct h50 hmed]
  cases sample <;> simp [sellComputeLimit, hdyn]

/-- C6 (witness): the scenario `sellPercentage = 80`, requested tier
`medium`, dynamic fees disabled, on the static configuration: the fee is
the configured high-tier fee. -/
theorem c6_theorem_witness :
    sellComputeLimit cfgStatic
        (sellSelectedFeeType (some FeeTier.medium) cfgStatic 80) 80 FeeSample.fail =
      cfgStatic.feeLevels FeeTier.high :=
  c6_theorem.2 (some FeeTier.medium) cfgStatic 80 FeeSample.fail (by norm_num) rfl rfl

/-- The verification block reports success exactly when it reports the
`finalized` status. -/
lemma verifyPhase2_success_iff (env : VerifyEnv) :
    (verifyPhase2 env).success = true ↔ (verifyPhase2 env).status = VStatus.finalized := by
  unfold verifyPhase2
  cases h2 : env.lookup2 with
  | thrown => simp
  | missing => simp
  | found err conf =>
    cases err
    · dsimp only
      split_ifs with hconf
      · simp
      · cases hfl : (finalizationLoop env.finalPolls 10 0).1 with
        | none => simp [hfl]
        | some b => cases b <;> simp [hfl]
    · simp

/-- The buy result copies the verifier's success flag and status. -/
lemma buyResultFromVerification_eq (vr : VResult) :
    buyResultFromVerification vr = ⟨vr.success, vr.status⟩ := by
  unfold buyResultFromVerification
  cases h : vr.success <;> simp [h]

/-- C7: the finality verifier returns `success = true` exactly when its
status is `finalized`, and the trade result built from it preserves this:
every non-finalized status (`failed`, `not_found`, `not_finalized`,
`verification_failed`, `verification_error`) carries `success = false`. -/
theorem c7_theorem (env : VerifyEnv) (maxRetries : ℕ) :
    ((verifyTransactionOnChain env maxRetries).success = true ↔
      (verifyTransactionOnChain env maxRetries).status = VStatus.finalized) ∧
    ((buyResultFromVerification (verifyTransactionOnChain env maxRetries)).success = true ↔
      (buyResultFromVerification (verifyTransactionOnChain env maxRetries)).status =
        VStatus.finalized) := by
  have key : (verifyTransactionOnChain env maxRetries).success = true ↔
      (verifyTransactionOnChain env maxRetries).status = VStatus.finalized := by
    unfold verifyTransactionOnChain
    cases hp : (runPolls env.polls maxRetries 0).1 with
    | failedNow => simp
    | finalizedNow => exact verifyPhase2_success_iff env
    | exhausted =>
      cases hl : env.lookup1 with
      | thrown => simp
      | notFound => simp
      | found err =>
        cases err
        · exact verifyPhase2_success_iff env
        · simp
  exact ⟨key, by rw [buyResultFromVerification_eq]; exact key⟩

/-- C8 (counterexample): a sell execution in which the versioned decode
and send both succeed still performs a legacy decode (because the
verification call throws), and a buy execution in which the versioned
decode succeeds but the send throws also performs a legacy decode — so
legacy decoding is not reserved for executions where versioned decoding
threw. -/
theorem c8_counterexample :
    (sellSubmit ⟨true, true, true, true, true, true⟩).2 =
      [SubmitEvent.decodeVersioned true, SubmitEvent.sendVersioned true,
        SubmitEvent.verifyAttempt true, SubmitEvent.decodeLegacy true,
        SubmitEvent.sendLegacy true, SubmitEvent.verifyAttempt true] ∧
    SubmitEvent.decodeVersioned false ∉
      (sellSubmit ⟨true, true, true, true, true, true⟩).2 ∧
    (buySubmit ⟨true, false, true, true, true, true⟩).2 =
      [SubmitEvent.decodeVersioned true, SubmitEvent.sendVersioned false,
        SubmitEvent.decodeLegacy true, SubmitEvent.sendLegacy true,
        SubmitEvent.verifyAttempt false] ∧
    SubmitEvent.decodeVersioned false ∉
      (buySubmit ⟨true, false, true, true, true, true⟩).2 := by
  exact ⟨rfl, by decide, rfl, by decide⟩

/-- C8 (amended): in every buy and sell execution, versioned decoding is
the first submission event — so legacy decoding never precedes it — and a
legacy decode happens exactly when a step of the versioned path threw: for
buys, when versioned decoding or the versioned send fails; for sells, in
every execution (versioned decoding or send failing, or the undefined
verification import throwing after a successful send). -/
theorem c8_amended (env : SubmitEnv) :
    (buySubmit env).2.head? =
      some (SubmitEvent.decodeVersioned env.versionedDecodes) ∧
    (sellSubmit env).2.head? =
      some (SubmitEvent.decodeVersioned env.versionedDecodes) ∧
    (buySubmit env).2.any SubmitEvent.isDecodeLegacy =
      (!env.versionedDecodes || !env.versionedSendOk) ∧
    (sellSubmit env).2.any SubmitEvent.isDecodeLegacy = true := by
  rcases env with ⟨vd, vs, ld, ls, vv, vl⟩
  cases vd <;> cases vs <;> cases ld <;> cases ls <;> cases vv <;> cases vl <;>
    exact ⟨rfl, rfl, by decide, by decide⟩

/-- The polling loop performs at most `fuel` status polls. -/
lemma runPolls_count_le (polls : ℕ → PollResult) :
    ∀ fuel i, (runPolls polls fuel i).2 ≤ fuel := by
  intro fuel
  induction fuel with
  | zero => intro i; simp [runPolls]
  | succ n ih =>
    intro i
    unfold runPolls
    cases h : polls i with
    | thrown => have := ih (i + 1); dsimp only; omega
    | noStatus => have := ih (i + 1); dsimp only; omega
    | status err conf =>
      cases err
      · dsimp only
        split_ifs
        · omega
        · have := ih (i + 1); omega
      · dsimp only; omega

/-- A throwing poll still consumes exactly one retry per iteration: with
an always-throwing status call the loop runs exactly `fuel` times. -/
lemma runPolls_thrown : ∀ fuel i,
    runPolls (fun _ => PollResult.thrown) fuel i = (PollPhase.exhausted, fuel) := by
  intro fuel
  induction fuel with
  | zero => intro i; rfl
  | succ n ih => intro i; unfold runPolls; rw [ih (i + 1)]

/-- The finalization re-check loop performs at most `fuel` status
lookups. -/
lemma finalizationLoop_count_le (fp : ℕ → FinalPoll) :
    ∀ fuel i, (finalizationLoop fp fuel i).2 ≤ fuel := by
  intro fuel
  induction fuel with
  | zero => intro i; simp [finalizationLoop]
  | succ n ih =>
    intro i
    unfold finalizationLoop
    cases h : fp i with
    | thrown => dsimp only; omega
    | finalized => dsimp only; omega
    | notFinalized => have := ih (i + 1); dsimp only; omega

/-- The verification block makes at most 11 ledger calls (one lookup and
at most ten finalization polls). -/
lemma verifyPhase2Calls_le (env : VerifyEnv) : verifyPhase2Calls env ≤ 11 := by
  unfold verifyPhase2Calls
  cases h2 : env.lookup2 with
  | thrown => exact (by norm_num : (1 : ℕ) ≤ 11)
  | missing => exact (by norm_num : (1 : ℕ) ≤ 11)
  | found err conf =>
    cases err
    · dsimp only
      split_ifs
      · omega
      · have := finalizationLoop_count_le env.finalPolls 10 0
        omega
    · exact (by norm_num : (1 : ℕ) ≤ 11)

/-- C9: for every ledger behavior, the verifier performs at most
`maxRetries` status polls and at most `maxRetries + 12` ledger calls in
total (the fixed secondary budget: one direct lookup, one verification
lookup, ten finalization polls); the retry counter is decremented on every
iteration — an always-throwing status call still ends the loop after
exactly `maxRetries` iterations. -/
theorem c9_theorem (env : VerifyEnv) (maxRetries : ℕ) :
    (runPolls env.polls maxRetries 0).2 ≤ maxRetries ∧
    verifyTotalCalls env maxRetries ≤ maxRetries + 12 ∧
    (runPolls (fun _ => PollResult.thrown) maxRetries 0).2 = maxRetries := by
  refine ⟨runPolls_count_le env.polls maxRetries 0, ?_, ?_⟩
  · unfold verifyTotalCalls
    have h1 := runPolls_count_le env.polls maxRetries 0
    have h2 := verifyPhase2Calls_le env
    refine Nat.add_le_add h1 ?_
    cases hp : (runPolls env.polls maxRetries 0).1 with
    | failedNow => exact Nat.zero_le 12
    | finalizedNow => exact le_trans h2 (by norm_num)
    | exhausted =>
      cases hl : env.lookup1 with
      | thrown => exact (by norm_num : (1 + 0 : ℕ) ≤ 12)
      | notFound => exact (by norm_num : (1 + 0 : ℕ) ≤ 12)
      | found err =>
        cases err
        · exact (by omega : 1 + verifyPhase2Calls env ≤ 12)
        · exact (by norm_num : (1 + 0 : ℕ) ≤ 12)
  · rw [runPolls_thrown maxRetries 0]

/-- C10: in the sell path the boost factor (1.5 when `sellPercentage ≥ 75`
else 1.2) enters the fee twice — once inside the compute limit through
`min(dynamicMultiplier * boost, priorityFeeMultiplier * 1.5)`, and again
in the injected compute-unit price
`floor((computeLimit / 10) * priorityFeeMultiplier * boost)` — and on the
unfloored quantities, when neither clip binds, the sell price is exactly
`boost²` times the buy-path price built from the same ingredients. -/
theorem c10_theorem (cfg : Config) (tier : FeeTier) (pct : ℚ) (fees : List ℚ)
    (computeLimit mult : ℚ) (ixs : List Ix)
    (hdyn : cfg.dynamicFee = true)
    (hcust : ¬(tier = FeeTier.custom ∧ 0 < cfg.feeLevels FeeTier.custom))
    (hne : 0 < fees.length)
    (hcl : computeLimit ≠ 0) (hm : 1 < mult) :
    sellComputeLimit cfg tier pct (FeeSample.ok fees) =
      ((⌊cfg.feeLevels tier *
          min (dynamicMultiplier fees * sellMultiplierBoost pct)
            (cfg.priorityFeeMultiplier * (3 / 2))⌋ : ℤ) : ℚ) ∧
    sellPriorityFeeMicroLamports computeLimit mult pct =
      ⌊computeLimit / 10 * mult * sellMultiplierBoost pct⌋ ∧
    Ix.computeUnitPrice (sellPriorityFeeMicroLamports computeLimit mult pct) ∈
      augmentLegacySell computeLimit mult pct ixs ∧
    (∀ baseFee dyn m boost : ℚ, dyn * boost ≤ m * (3 / 2) → dyn ≤ m →
      idealSellPrice baseFee dyn m boost = boost ^ 2 * idealBuyPrice baseFee dyn m) := by
  have hne' : fees.length > 0 := hne
  refine ⟨?_, rfl, ?_, ?_⟩
  · simp [sellComputeLimit, hdyn, hcust, hne']
  · simp [augmentLegacySell, hcl, hm]
  · intro baseFee dyn m boost hb hd
    unfold idealSellPrice idealBuyPrice
    rw [min_eq_left hb, min_eq_left hd]
    ring

/-- C10 (witness): the double boost at medium tier 10000, ceiling 3, one
fee observation of 20000, `sellPercentage = 80`, compute limit 45000,
multiplier 3. -/
theorem c10_theorem_witness :
    Ix.computeUnitPrice (sellPriorityFeeMicroLamports 45000 3 80) ∈
      augmentLegacySell 45000 3 80 [Ix.swap 0] :=
  (c10_theorem cfgDyn FeeTier.medium 80 [20000] 45000 3 [Ix.swap 0] rfl
    (by simp [cfgDyn]) (by simp) (by norm_num) (by norm_num)).2.2.1

end SolBot
